import Mathlib

/-!
Verification development for the cloud-connectors repository.

The Python sources under `cloud_connectors/` are shallowly embedded here:
pure adapter logic becomes Lean functions, the provider backends (S3, STS,
Postgres) become explicit state passing, and fallible calls return `Except`.
Provider SDK calls additionally take an optional injected fault
(`Option PyExc`), modelling the exception the SDK call may raise; `none`
means the call behaves according to the honest backend semantics.
-/

namespace CloudConnectors

/-- Python exceptions raised by the vendor SDKs, as the adapters observe
them: a botocore `ClientError` carries the dynamic subclass name
(`type(ex).__name__`) and the response error code
(`ex.response["Error"]["Code"]`). -/
inductive PyExc where
  | clientError (name : String) (code : String)
  | paramValidationError
  | noCredentialsError
  | partialCredentialsError
  | credentialRetrievalError
  deriving DecidableEq

/-- The Python `type(ex).__name__` of an SDK exception. -/
def pyExcName : PyExc → String
  | .clientError n _ => n
  | .paramValidationError => "ParamValidationError"
  | .noCredentialsError => "NoCredentialsError"
  | .partialCredentialsError => "PartialCredentialsError"
  | .credentialRetrievalError => "CredentialRetrievalError"

/-- The response error code of an SDK exception (empty for non-client errors). -/
def pyExcCode : PyExc → String
  | .clientError _ c => c
  | _ => ""

/-- Errors observable from an adapter call.  The first block is the
repository error taxonomy (`cloud_connectors/exceptions.py` plus the Python
builtins `ConnectionError` and `TypeError` the adapters raise); the second
block covers the remaining Python behaviours of the source: a fresh generic
`Exception` wrapping an SDK error (`raise Exception(ex)`), an SDK exception
propagating uncaught, an `UnboundLocalError` or `AttributeError` or
`KeyError` raised by the interpreter. -/
inductive Err where
  | configurationError (field : String)
  | connectionError (msg : String)
  | bucketNotFound (msg : String)
  | objectNotFound (msg : String)
  | destinationPathError (msg : String)
  | destinationPathPermissionsError (msg : String)
  | dataStructureError (msg : String)
  | databaseConnectionError (msg : String)
  | databaseError (msg : String)
  | typeError (msg : String)
  | wrappedException (e : PyExc)
  | nativeError (e : PyExc)
  | unboundLocal (varName : String)
  | attributeError (attrName : String)
  | keyError (k : String)
  | indexError (msg : String)
  deriving DecidableEq

/-- Whether an adapter call terminated in a raised error (as opposed to a
normal return). -/
def resIsError {α : Type} : Except Err α → Bool
  | .error _ => true
  | .ok _ => false

/-- Whether an adapter call raised specifically a `DataStructureError`. -/
def resIsDataStructureError {α : Type} : Except Err α → Bool
  | .error (.dataStructureError _) => true
  | _ => false

/-- Decidable equality of call outcomes, so that concrete witnesses can be
checked by evaluation. -/
instance instDecEqExcept {ε α : Type} [DecidableEq ε] [DecidableEq α] :
    DecidableEq (Except ε α) := fun x y =>
  match x, y with
  | .ok a, .ok b => decidable_of_iff (a = b) (by simp)
  | .error e, .error f => decidable_of_iff (e = f) (by simp)
  | .ok _, .error _ => isFalse (by simp)
  | .error _, .ok _ => isFalse (by simp)

/-! ### Association lists (the object-store and row maps) -/

/-- Lookup in an association list. -/
def assocGet {α : Type} (k : String) : List (String × α) → Option α
  | [] => none
  | (k2, v) :: rest => if k = k2 then some v else assocGet k rest

/-- Insert-or-replace in an association list. -/
def assocPut {α : Type} (k : String) (v : α) : List (String × α) → List (String × α)
  | [] => [(k, v)]
  | (k2, v2) :: rest => if k = k2 then (k, v) :: rest else (k2, v2) :: assocPut k v rest

/-- Remove a key from an association list. -/
def assocDel {α : Type} (k : String) : List (String × α) → List (String × α)
  | [] => []
  | (k2, v2) :: rest => if k = k2 then assocDel k rest else (k2, v2) :: assocDel k rest

/-! ### S3 backend model

A stored object carries its byte content and its content-type metadata; a
bucket maps keys to objects; the backend maps bucket names to buckets. -/

/-- A stored S3 object: byte content plus content-type metadata. -/
structure S3Object where
  content : List Nat
  contentType : String
  deriving DecidableEq

abbrev BucketContent := List (String × S3Object)

abbrev S3State := List (String × BucketContent)

/-- The object stored at `(bucket, key)`, if any. -/
def objectAt (st : S3State) (bucket key : String) : Option S3Object :=
  (assocGet bucket st).bind (assocGet key)

/-- Extra `put_object` configuration (`ContentType` is the field the spec
tracks; absent means the S3 default `binary/octet-stream`). -/
structure WriteConfig where
  contentType : Option String
  deriving DecidableEq

/-- Extra `copy_object` configuration: the `MetadataDirective` and
`ContentType` entries of the configuration dict. -/
structure CopyConfig where
  metadataDirective : Option String
  contentType : Option String
  deriving DecidableEq

/-- The empty extra-configuration dict. -/
def CopyConfig.empty : CopyConfig := ⟨none, none⟩

/-! ### SDK primitives (boto3 calls with honest S3 semantics plus fault injection) -/

/-- `client.list_buckets()`. -/
def sdkListBuckets (st : S3State) (fault : Option PyExc) : Except PyExc (List String) :=
  match fault with
  | some e => .error e
  | none => .ok (st.map (fun b => b.1))

/-- `client.get_object(Bucket, Key)`. -/
def sdkGetObject (st : S3State) (fault : Option PyExc) (bucket key : String) :
    Except PyExc S3Object :=
  match fault with
  | some e => .error e
  | none =>
    match assocGet bucket st with
    | none => .error (.clientError "NoSuchBucket" "NoSuchBucket")
    | some bc =>
      match assocGet key bc with
      | none => .error (.clientError "NoSuchKey" "NoSuchKey")
      | some o => .ok o

/-- `client.put_object(Body, Bucket, Key, **configuration)`. -/
def sdkPutObject (st : S3State) (fault : Option PyExc) (bucket key : String)
    (content : List Nat) (cfg : WriteConfig) : Except PyExc S3State :=
  match fault with
  | some e => .error e
  | none =>
    match assocGet bucket st with
    | none => .error (.clientError "NoSuchBucket" "NoSuchBucket")
    | some bc =>
      .ok (assocPut bucket
        (assocPut key ⟨content, cfg.contentType.getD "binary/octet-stream"⟩ bc) st)

/-- `client.copy_object(Bucket, CopySource, Key, **configuration)`.  Honest
S3 semantics: the destination bucket and the source object must exist; a
copy onto the exact source coordinates without `MetadataDirective=REPLACE`
is rejected as an illegal no-op copy; metadata (content-type) is replaced by
the request value only under the REPLACE directive, otherwise copied from
the source. -/
def sdkCopyObject (st : S3State) (fault : Option PyExc)
    (dstBucket srcBucket srcKey dstKey : String) (cfg : CopyConfig) :
    Except PyExc S3State :=
  match fault with
  | some e => .error e
  | none =>
    match assocGet dstBucket st with
    | none => .error (.clientError "NoSuchBucket" "NoSuchBucket")
    | some dstC =>
      match objectAt st srcBucket srcKey with
      | none => .error (.clientError "NoSuchKey" "NoSuchKey")
      | some src =>
        if (dstBucket, dstKey) = (srcBucket, srcKey) ∧ cfg.metadataDirective ≠ some "REPLACE"
        then .error (.clientError "ClientError" "InvalidRequest")
        else
          let newType :=
            if cfg.metadataDirective = some "REPLACE" then
              match cfg.contentType with
              | some ct => ct
              | none => src.contentType
            else src.contentType
          .ok (assocPut dstBucket (assocPut dstKey ⟨src.content, newType⟩ dstC) st)

/-- `client.delete_object(Bucket, Key)`; S3 deletion is idempotent on the key. -/
def sdkDeleteObject (st : S3State) (fault : Option PyExc) (bucket key : String) :
    Except PyExc S3State :=
  match fault with
  | some e => .error e
  | none =>
    match assocGet bucket st with
    | none => .error (.clientError "NoSuchBucket" "NoSuchBucket")
    | some bc => .ok (assocPut bucket (assocDel key bc) st)

/-- Prefix test on strings, by character list (the server-side `Prefix`
filter of a listing). -/
def strHasPfx (pfx s : String) : Bool := pfx.toList.isPrefixOf s.toList

/-- One listing entry as the adapter reads it from a page: object key and size. -/
abbrev ObjEntry := String × Nat

/-- `paginator.paginate(Bucket, Prefix)` for `list_objects_v2`: the pages of
entries whose key starts with the prefix (page boundaries are transparent to
the adapter, which concatenates them; the honest model returns one page). -/
def sdkPaginateListObjects (st : S3State) (fault : Option PyExc)
    (bucket pfx : String) : Except PyExc (List (List ObjEntry)) :=
  match fault with
  | some e => .error e
  | none =>
    match assocGet bucket st with
    | none => .error (.clientError "NoSuchBucket" "NoSuchBucket")
    | some bc =>
      .ok [(bc.filter (fun kv => strHasPfx pfx kv.1)).map
            (fun kv => (kv.1, kv.2.content.length))]

/-! ### The S3 adapter (`cloud_connectors/aws/s3.py`, class `Client`)

Each adapter operation takes the backend state and one injected-fault slot
per SDK call it performs, and translates provider exceptions exactly as the
source's `except` clauses do. -/

namespace Client

/-- `Client.list_buckets` (s3.py lines 296-312).  Only `ClientError` is
caught; a code other than `InvalidAccessKeyId` falls through the handler and
the function returns `None` — modelled as `.ok none`, a normal return.
A successful response yields the bucket names (`some` list). -/
def list_buckets (st : S3State) (fault : Option PyExc) :
    Except Err (Option (List String)) :=
  match sdkListBuckets st fault with
  | .ok names => .ok (some names)
  | .error (.clientError _n code) =>
    if code = "InvalidAccessKeyId" then .error (.connectionError "Invalid access key")
    else .ok none
  | .error e => .error (.nativeError e)

/-- `Client._list_objects` (s3.py lines 354-385).  The `max_objects`
argument is defaulted to 1000 when falsy — and then never used, exactly as
in the source.  `ParamValidationError` maps to `BucketNotFound`; a
`ClientError` named `NoSuchBucket` maps to `BucketNotFound`, any other
`ClientError` falls through the handler and the accumulated `output` is
returned normally; other exception types are not caught. -/
def private_list_objects (st : S3State) (fault : Option PyExc)
    (bucket : String) (pfx : String) (max_objects : Option Nat) :
    Except Err (List ObjEntry) :=
  let _max_objects : Nat := match max_objects with | some n => n | none => 1000
  match sdkPaginateListObjects st fault bucket pfx with
  | .ok pages => .ok (pages.foldl (fun out page => out ++ page) [])
  | .error .paramValidationError =>
    .error (.bucketNotFound "parameter validation failed")
  | .error (.clientError n _code) =>
    if n = "NoSuchBucket" then
      .error (.bucketNotFound ("Bucket " ++ bucket ++ " not found."))
    else .ok []
  | .error e => .error (.nativeError e)

/-- `Client.list_objects` (s3.py lines 314-332): the keys of
`_list_objects`. -/
def list_objects (st : S3State) (fault : Option PyExc)
    (bucket : String) (pfx : String) (max_objects : Option Nat) :
    Except Err (List String) :=
  (private_list_objects st fault bucket pfx max_objects).map
    (fun entries => entries.map (fun o => o.1))

/-- `Client.list_objects_size` (s3.py lines 334-352): key-size pairs of
`_list_objects`. -/
def list_objects_size (st : S3State) (fault : Option PyExc)
    (bucket : String) (pfx : String) (max_objects : Option Nat) :
    Except Err (List ObjEntry) :=
  (private_list_objects st fault bucket pfx max_objects).map
    (fun entries => entries.map (fun o => (o.1, o.2)))

/-- `Client.read` (s3.py lines 387-416): `get_object` with
`ParamValidationError ↦ BucketNotFound`, `NoCredentialsError ↦
ConnectionError`, then a generic handler dispatching on the exception class
name (`NoSuchKey ↦ ObjectNotFound`, `NoSuchBucket`/`InvalidBucketName` ↦
`BucketNotFound`, anything else re-raised as a fresh `Exception`). -/
def read (st : S3State) (fault : Option PyExc) (bucket path : String) :
    Except Err (List Nat) :=
  match sdkGetObject st fault bucket path with
  | .ok o => .ok o.content
  | .error .paramValidationError =>
    .error (.bucketNotFound "parameter validation failed")
  | .error .noCredentialsError =>
    .error (.connectionError "Cannot connect, no credentials provided")
  | .error e =>
    if pyExcName e = "NoSuchKey" then
      .error (.objectNotFound ("Object " ++ path ++ " not found in bucket " ++ bucket))
    else if pyExcName e = "NoSuchBucket" ∨ pyExcName e = "InvalidBucketName" then
      .error (.bucketNotFound ("Bucket " ++ bucket ++ " not found"))
    else .error (.wrappedException e)

/-- `Client.write` (s3.py lines 418-451): `put_object` with
`NoCredentialsError ↦ ConnectionError`, then a generic handler dispatching
on the class name (`NoSuchBucket ↦ BucketNotFound`,
`ParamValidationError ↦ TypeError`, anything else re-raised as a fresh
`Exception`). -/
def write (st : S3State) (fault : Option PyExc) (obj : List Nat)
    (bucket path : String) (configuration : Option WriteConfig) :
    Except Err S3State :=
  let cfg := match configuration with | some c => c | none => ⟨none⟩
  match sdkPutObject st fault bucket path obj cfg with
  | .ok st2 => .ok st2
  | .error .noCredentialsError =>
    .error (.connectionError "Cannot connect, no credentials provided")
  | .error e =>
    if pyExcName e = "NoSuchBucket" then
      .error (.bucketNotFound ("Bucket " ++ bucket ++ " not found."))
    else if pyExcName e = "ParamValidationError" then
      .error (.typeError "Provided function attributes have wrong type.")
    else .error (.wrappedException e)

/-- The `MetadataDirective` entry of the configuration passed on to
`copy_object` (s3.py lines 562-564): set to REPLACE exactly when the tuple
`(bucket_destination, path_destination)` equals `(bucket_source,
path_source)` — a comparison of the raw arguments, in which an omitted
`path_destination` (`None`) never equals the string `path_source`. -/
def copyDirective (bucket_source bucket_destination path_source : String)
    (path_destination : Option String) (configuration : Option CopyConfig) :
    Option String :=
  let cfg := match configuration with | some c => c | none => CopyConfig.empty
  if (bucket_destination, path_destination) = (bucket_source, some path_source)
  then some "REPLACE" else cfg.metadataDirective

/-- `Client.copy` (s3.py lines 538-593).  Pipeline: set the REPLACE
directive when the raw destination tuple equals the source tuple; fetch the
source object (`NoCredentialsError ↦ ConnectionError`; `ClientError` named
`NoSuchKey ↦ ObjectNotFound`, `NoSuchBucket ↦ BucketNotFound`, otherwise a
fresh `Exception`; other exception types uncaught); overwrite the
configuration's `ContentType` with the fetched object's; issue
`copy_object` with destination key defaulting to `path_source`
(`ClientError` named `NoSuchBucket ↦ BucketNotFound`, otherwise a fresh
`Exception`). -/
def copy (st : S3State) (faultGet faultCopy : Option PyExc)
    (bucket_source bucket_destination path_source : String)
    (path_destination : Option String) (configuration : Option CopyConfig) :
    Except Err Unit × S3State :=
  let directive := copyDirective bucket_source bucket_destination path_source
      path_destination configuration
  match sdkGetObject st faultGet bucket_source path_source with
  | .error .noCredentialsError =>
    (.error (.connectionError "Cannot connect, no credentials provided"), st)
  | .error (.clientError n code) =>
    if n = "NoSuchKey" then
      (.error (.objectNotFound
        ("Object " ++ path_source ++ " not found in bucket " ++ bucket_source)), st)
    else if n = "NoSuchBucket" then
      (.error (.bucketNotFound ("Bucket " ++ bucket_source ++ " not found.")), st)
    else (.error (.wrappedException (.clientError n code)), st)
  | .error e => (.error (.nativeError e), st)
  | .ok obj =>
    let cfg2 : CopyConfig := ⟨directive, some obj.contentType⟩
    match sdkCopyObject st faultCopy bucket_destination bucket_source path_source
        (match path_destination with | some p => p | none => path_source) cfg2 with
    | .ok st2 => (.ok (), st2)
    | .error (.clientError n code) =>
      if n = "NoSuchBucket" then
        (.error (.bucketNotFound ("Bucket " ++ bucket_destination ++ " not found.")), st)
      else (.error (.wrappedException (.clientError n code)), st)
    | .error e => (.error (.nativeError e), st)

/-- `Client.delete_object` (s3.py lines 628-645): `delete_object` with a
generic handler (`NoSuchBucket ↦ BucketNotFound`, anything else re-raised
as a fresh `Exception`). -/
def delete_object (st : S3State) (fault : Option PyExc) (bucket path : String) :
    Except Err Unit × S3State :=
  match sdkDeleteObject st fault bucket path with
  | .ok st2 => (.ok (), st2)
  | .error e =>
    if pyExcName e = "NoSuchBucket" then
      (.error (.bucketNotFound ("Bucket " ++ bucket ++ " not found.")), st)
    else (.error (.wrappedException e), st)

/-- `Client.move` (s3.py lines 595-626): `copy` with the configuration
defaulted to the empty dict, then `delete_object` on the source; an error
from either step propagates to the caller. -/
def move (st : S3State) (faultGet faultCopy faultDelete : Option PyExc)
    (bucket_source bucket_destination path_source : String)
    (path_destination : Option String) (configuration : Option CopyConfig) :
    Except Err Unit × S3State :=
  let cfg := match configuration with | some c => c | none => CopyConfig.empty
  match copy st faultGet faultCopy bucket_source bucket_destination path_source
      path_destination (some cfg) with
  | (.error e, st2) => (.error e, st2)
  | (.ok _, st2) => delete_object st2 faultDelete bucket_source path_source

end Client

/-! ### STS role assumption (`cloud_connectors/aws/sts.py`)

The configuration mapping of `assume_role` has the four recognised keys of
`CONFIG_SCHEMA`; `extraKeys` records any further keys present in the
mapping (rejected by `additionalProperties: false`). -/

/-- The `assume_role` configuration mapping. -/
structure StsConfig where
  region_name : Option String
  aws_access_key_id : Option String
  aws_secret_access_key : Option String
  role_arn : Option String
  extraKeys : List String
  deriving DecidableEq

/-- The region enumeration of the schemas in `sts.py` and `s3.py`. -/
def awsRegions : List String :=
  ["us-east-1", "us-east-2", "us-west-1", "us-west-2", "ca-central-1",
   "eu-central-1", "eu-west-1", "eu-west-2", "eu-west-3", "eu-south-1",
   "eu-north-1", "me-south-1", "sa-east-1", "cn-north-1", "cn-northwest-1",
   "af-south-1", "ap-east-1", "ap-south-1", "ap-northeast-1",
   "ap-northeast-2", "ap-northeast-3", "ap-southeast-1", "ap-southeast-2"]

/-- Character class of the `aws_secret_access_key` pattern. -/
def isSecretKeyChar (c : Char) : Bool :=
  c.isAlphanum || "+-=*/\\!?%$#&()[]".toList.contains c

/-- The `aws_access_key_id` constraint of `CONFIG_SCHEMA` in `sts.py`:
pattern `AKIA[A-Z0-9]{16}` searched unanchored, combined with
`minLength = maxLength = 20` — with the length fixed at 20 the only
possible match is the whole string. -/
def matchesAccessKeyId (s : String) : Bool :=
  s.length = 20 && strHasPfx "AKIA" s &&
    (s.toList.drop 4).all (fun c => c.isUpper || c.isDigit)

/-- The `aws_secret_access_key` constraint: 40 characters of the secret
character class (pattern search plus `minLength = maxLength = 40`). -/
def matchesSecretAccessKey (s : String) : Bool :=
  s.length = 40 && s.toList.all isSecretKeyChar

/-- The `role_arn` pattern `^arn:aws:iam::[0-9]{12}:role/*.?` (anchored
search): the literal prefix, twelve digits, then `:role`; the trailing
`/*.?` matches the empty string and imposes nothing. -/
def matchesRoleArn (s : String) : Bool :=
  let cs := s.toList
  "arn:aws:iam::".toList.isPrefixOf cs &&
    ((cs.drop 13).take 12).all Char.isDigit &&
    decide (12 ≤ (cs.drop 13).length) &&
    ":role".toList.isPrefixOf (cs.drop 25)

/-- Validation of the `assume_role` configuration against `CONFIG_SCHEMA`
(`sts.py` lines 11-71): unknown keys rejected, `role_arn` required, the
region constrained to the enumeration, the credential keys pattern- and
length-constrained.  A violation is reported as `ConfigurationError`
naming the offending field, as the `JsonSchemaException` wrapper at lines
99-102 does. -/
def validateStsConfig (c : StsConfig) : Except Err Unit :=
  let fieldOk : Option String → (String → Bool) → Bool := fun v p =>
    match v with
    | some x => p x
    | none => true
  match c.extraKeys with
  | k :: _ => .error (.configurationError k)
  | [] =>
    if c.role_arn = none then .error (.configurationError "role_arn")
    else if fieldOk c.region_name awsRegions.contains = false then
      .error (.configurationError "region_name")
    else if fieldOk c.aws_access_key_id matchesAccessKeyId = false then
      .error (.configurationError "aws_access_key_id")
    else if fieldOk c.aws_secret_access_key matchesSecretAccessKey = false then
      .error (.configurationError "aws_secret_access_key")
    else if fieldOk c.role_arn matchesRoleArn = false then
      .error (.configurationError "role_arn")
    else .ok ()

/-- A response of the STS `assume_role` call: HTTP status plus the
temporary credentials. -/
structure StsResponse where
  httpStatus : Nat
  accessKeyId : String
  secretAccessKey : String
  sessionToken : String
  deriving DecidableEq

/-- `assume_role` (`sts.py` lines 75-126).  After validation the source
pops `role_arn` out of (i.e. mutates) the configuration mapping and calls
STS; `outcome` is the result of that SDK call.  A `ClientError` with code
`InvalidClientTokenId` maps to `ConnectionError`; any other `ClientError`
falls through the handler, after which line 120 references the never-bound
`resp` and Python raises `UnboundLocalError`.  Partial/missing-credential
errors map to `ConnectionError`; other exception types are not caught.  A
200 response returns the three temporary-credential keys, any other status
returns the empty mapping. -/
def assume_role (c : StsConfig) (outcome : Except PyExc StsResponse) :
    Except Err (List (String × String)) :=
  match validateStsConfig c with
  | .error e => .error e
  | .ok () =>
    match outcome with
    | .error (.clientError _n code) =>
      if code = "InvalidClientTokenId" then .error (.connectionError "Invalid client token")
      else .error (.unboundLocal "resp")
    | .error .partialCredentialsError => .error (.connectionError "partial credentials")
    | .error .credentialRetrievalError => .error (.connectionError "credential retrieval")
    | .error .noCredentialsError => .error (.connectionError "no credentials")
    | .error e => .error (.nativeError e)
    | .ok resp =>
      if resp.httpStatus = 200 then
        .ok [("aws_access_key_id", resp.accessKeyId),
             ("aws_secret_access_key", resp.secretAccessKey),
             ("aws_session_token", resp.sessionToken)]
      else .ok []

/-! ### Database clients (`aws/redshift.py` and `database/postgres.py`)

A psycopg2 connection is a session-autocommit flag over a database holding
a durable (committed) statement log and a pending in-transaction log; a
fetch on the same connection observes durable plus pending effects. -/

/-- Committed and in-transaction effects of the database. -/
structure DbState where
  durable : List String
  pending : List String
  deriving DecidableEq

/-- A live psycopg2 connection. -/
structure PgConn where
  sessionAutocommit : Bool
  db : DbState
  deriving DecidableEq

/-- `cursor.execute(query)`: durable immediately under session autocommit,
otherwise appended to the open transaction. -/
def pgExecute (c : PgConn) (q : String) : PgConn :=
  if c.sessionAutocommit then ⟨c.sessionAutocommit, ⟨c.db.durable ++ [q], c.db.pending⟩⟩
  else ⟨c.sessionAutocommit, ⟨c.db.durable, c.db.pending ++ [q]⟩⟩

/-- `connection.commit()`. -/
def pgCommit (c : PgConn) : PgConn :=
  ⟨c.sessionAutocommit, ⟨c.db.durable ++ c.db.pending, []⟩⟩

/-- `connection.rollback()`: discards the open transaction. -/
def pgRollback (c : PgConn) : PgConn :=
  ⟨c.sessionAutocommit, ⟨c.db.durable, []⟩⟩

/-- What `query_fetch` observes on this connection: durable effects plus
the connection's own uncommitted effects. -/
def pgView (c : PgConn) : List String := c.db.durable ++ c.db.pending

/-- The Postgres client of `database/postgres.py`. -/
structure PostgresClient where
  conn : PgConn
  deriving DecidableEq

namespace Postgres

/-- `Client.__init__` (`postgres.py` lines 58-96) over an existing durable
database `db0`.  Line 94 executes `self.conn.set_session(autocommit=True)`
with the literal `True`: the `autocommit` parameter is accepted and then
ignored.  (Configuration validation, the unbound `exceptions` name in its
handler, and the module-level syntax error at line 203 are discussed with
the claims; this embeds the intended post-construction state.) -/
def init (db0 : List String) (autocommit : Bool) : PostgresClient :=
  let _autocommit := autocommit
  ⟨⟨true, ⟨db0, []⟩⟩⟩

/-- `Client.query_cud` (`postgres.py` lines 133-154): execute, then commit
when the `commit` argument (default `True`) is set. -/
def query_cud (cl : PostgresClient) (q : String) (commit : Bool) : PostgresClient :=
  let c1 := pgExecute cl.conn q
  if commit then ⟨pgCommit c1⟩ else ⟨c1⟩

/-- `Client.commit` (`postgres.py` lines 206-209). -/
def commit (cl : PostgresClient) : PostgresClient := ⟨pgCommit cl.conn⟩

/-- `Client.rollback` (`postgres.py` lines 211-214). -/
def rollback (cl : PostgresClient) : PostgresClient := ⟨pgRollback cl.conn⟩

end Postgres

/-- The Redshift/Postgres client of `aws/redshift.py`; it stores the
`autocommit` flag and configures the session with it. -/
structure RedshiftClient where
  conn : PgConn
  autocommit : Bool
  deriving DecidableEq

namespace Redshift

/-- `Client.__init__` (`redshift.py` lines 79-93): the session autocommit
is set from the `autocommit` argument. -/
def init (db0 : List String) (autocommit : Bool) : RedshiftClient :=
  ⟨⟨autocommit, ⟨db0, []⟩⟩, autocommit⟩

/-- `Client.query_cud` (`redshift.py` lines 127-144): execute, then commit
only when the client was constructed with autocommit. -/
def query_cud (cl : RedshiftClient) (q : String) : RedshiftClient :=
  let c1 := pgExecute cl.conn q
  if cl.autocommit then ⟨pgCommit c1, cl.autocommit⟩ else ⟨c1, cl.autocommit⟩

/-- `Client.commit` (`redshift.py` lines 146-148). -/
def commit (cl : RedshiftClient) : RedshiftClient := ⟨pgCommit cl.conn, cl.autocommit⟩

/-- `Client.rollback` (`redshift.py` lines 150-152). -/
def rollback (cl : RedshiftClient) : RedshiftClient := ⟨pgRollback cl.conn, cl.autocommit⟩

end Redshift

/-! ### `write_batch` (`database/postgres.py` lines 156-204) -/

/-- JSON values, the shape of `write_batch` row data. -/
inductive Json where
  | null
  | bool (b : Bool)
  | num (n : Int)
  | str (s : String)
  | arr (xs : List Json)
  | obj (kvs : List (String × Json))

/-- Whether a value is a scalar (no nesting): the flat-row requirement of
the spec. -/
def Json.isScalar : Json → Bool
  | .arr _ => false
  | .obj _ => false
  | _ => true

/-- Whether psycopg2 can adapt the value as a query parameter: everything
except a mapping (lists adapt to SQL arrays; a dict has no adapter and
raises a `ProgrammingError`). -/
def Json.isAdaptable : Json → Bool
  | .obj _ => false
  | _ => true

/-- The `data_schema` check of `write_batch` (lines 174-189) under
fastjsonschema semantics.  Crucially `"items"` is given as a LIST, which
JSON Schema treats as positional (tuple) validation: only `data[0]` is
checked to be an object — with no required properties — and all further
items are unconstrained.  Failures raise `DataStructureError`. -/
def validateBatchData (data : Json) : Except Err Unit :=
  match data with
  | .arr [] => .ok ()
  | .arr (d0 :: _) =>
    match d0 with
    | .obj _ => .ok ()
    | _ => .error (.dataStructureError "data[0] must be object")
  | _ => .error (.dataStructureError "data must be array")

/-- Parameter lookup for one row of `psycopg2.extras.execute_batch`: every
column of the statement (taken from the first row) must be present in the
row — a missing key raises a native `KeyError`, which `except
psycopg2.Error` does not catch — and its value must be adaptable, else
psycopg2 raises a `ProgrammingError`, caught and re-raised as
`DatabaseError`. -/
def checkRow (cols : List String) (row : List (String × Json)) : Except Err Unit :=
  match cols with
  | [] => .ok ()
  | c :: rest =>
    match assocGet c row with
    | none => .error (.keyError c)
    | some v =>
      if v.isAdaptable then checkRow rest row
      else .error (.databaseError ("cannot adapt parameter " ++ c))

/-- `execute_batch`: executes the statement once per row (page grouping has
no semantic effect), stopping at the first failing row. -/
def execBatchRows (conn : PgConn) (query : String) (cols : List String) :
    List Json → Except Err PgConn
  | [] => .ok conn
  | r :: rest =>
    match r with
    | .obj kvs =>
      match checkRow cols kvs with
      | .error e => .error e
      | .ok () => execBatchRows (pgExecute conn query) query cols rest
    | _ => .error (.typeError "query parameters must be a mapping")

/-- `Client.write_batch` (`postgres.py` lines 156-204): validate the data
shape (see `validateBatchData`), derive the column list and the
parameterised `INSERT` statement from `data[0]` (an empty list raises
`IndexError` here, a non-mapping first element would raise
`AttributeError` on `.keys()`), then run `execute_batch` with
`page_size = batch_size`. -/
def write_batch (cl : PostgresClient) (table : String) (data : Json)
    (_batch_size : Nat) : Except Err PostgresClient :=
  match validateBatchData data with
  | .error e => .error e
  | .ok () =>
    match data with
    | .arr [] => .error (.indexError "list index out of range")
    | .arr (d0 :: rest) =>
      match d0 with
      | .obj kvs0 =>
        let cols := kvs0.map (fun kv => kv.1)
        let query := "INSERT INTO " ++ table ++ " (" ++
          String.intercalate ", " cols ++ ") VALUES (" ++
          String.intercalate ", " (cols.map (fun k => "%(" ++ k ++ ")s")) ++ ");"
        match execBatchRows cl.conn query cols (d0 :: rest) with
        | .error e => .error e
        | .ok conn2 => .ok ⟨conn2⟩
      | _ => .error (.attributeError "keys")
    | _ => .error (.typeError "data is not a list")

/-! ### GCS client construction (`cloud_connectors/gcp/gcs.py`) -/

/-- The recognised top-level key of the GCS configuration that the claims
exercise (the nested option groups are never reached, see `Gcs.init`). -/
structure GcsConfig where
  project : Option String
  deriving DecidableEq

namespace Gcs

/-- `Client.__init__` (`gcp/gcs.py` lines 132-156).  With a truthy
configuration the source evaluates `Client._validator(...)` — but neither
`gcp.gcs.Client` nor its base `template.cloud_storage.Client` defines
`_validator` (only the separate legacy `cloud_storage/s3.py` client does),
so Python raises `AttributeError` before any validation, mutation or SDK
call.  (The module as shipped does not even import: it uses `typing.List`,
`time` and `google.auth` without importing them.)  Without a configuration
the SDK client is constructed directly; a failure there is wrapped in
`ConnectionError`. -/
def init (configuration : Option GcsConfig) (fault : Option PyExc) :
    Except Err Unit :=
  match configuration with
  | some _ => .error (.attributeError "_validator")
  | none =>
    match fault with
    | some e => .error (.connectionError (pyExcName e))
    | none => .ok ()

end Gcs

/-! ### Retry decorator (`cloud_connectors/decorators.py` lines 9-27) -/

/-- Whether a call outcome is an exception. -/
def exceptFails {ε α : Type} : Except ε α → Bool
  | .error _ => true
  | .ok _ => false

/-- The wrapper loop of `connection_retry`: `f i` is the outcome of the
i-th invocation of the wrapped function.  Returns the wrapper's return
value together with the number of invocations made.  A success returns
immediately; an exception is caught, `time.sleep(delay_base +
delay_increment * i)` runs (timing only, no modelled effect), and the loop
continues; when the attempts are exhausted the loop ends and the wrapper
returns `None`. -/
def retryExec {α : Type} (f : Nat → Except String α) : Nat → Nat → Option α × Nat
  | _, 0 => (none, 0)
  | i, rem + 1 =>
    match f i with
    | .ok v => (some v, 1)
    | .error _ =>
      let r := retryExec f (i + 1) rem
      (r.1, r.2 + 1)

/-- `connection_retry(max_attempts, delay_base, delay_increment)` applied
to a function whose i-th invocation yields `f i`: the wrapper's return
value (`none` models Python returning `None`). -/
def connection_retry {α : Type} (max_attempts : Nat)
    (_delay_base _delay_increment : ℚ) (f : Nat → Except String α) : Option α :=
  (retryExec f 0 max_attempts).1

/-- The number of invocations of the wrapped function that
`connection_retry` performs. -/
def connection_retry_calls {α : Type} (max_attempts : Nat)
    (f : Nat → Except String α) : Nat :=
  (retryExec f 0 max_attempts).2

/-- Iterated `cursor.execute` of the same statement (observer for the
effect of a batched insert). -/
def pgExecuteAll (conn : PgConn) (q : String) : Nat → PgConn
  | 0 => conn
  | n + 1 => pgExecuteAll (pgExecute conn q) q n

/-! ## Lemmas and theorems -/

theorem assocGet_assocPut_self {α : Type} (k : String) (v : α) (l : List (String × α)) :
    assocGet k (assocPut k v l) = some v := by
  induction l with
  | nil => simp [assocGet, assocPut]
  | cons hd tl ih =>
    by_cases h : k = hd.1
    · simp [assocPut, h, assocGet]
    · simp only [assocPut]
      rw [if_neg h]
      simp only [assocGet]
      rw [if_neg h]
      exact ih

theorem assocGet_assocPut_ne {α : Type} (k k2 : String) (v : α) (l : List (String × α))
    (h : k ≠ k2) : assocGet k (assocPut k2 v l) = assocGet k l := by
  induction l with
  | nil => simp [assocGet, assocPut, h]
  | cons hd tl ih =>
    by_cases h2 : k2 = hd.1
    · simp only [assocPut]
      rw [if_pos h2]
      simp only [assocGet]
      rw [if_neg (h2 ▸ h), if_neg (h2 ▸ h)]
    · simp only [assocPut]
      rw [if_neg h2]
      simp only [assocGet]
      by_cases h3 : k = hd.1
      · rw [if_pos h3, if_pos h3]
      · rw [if_neg h3, if_neg h3]
        exact ih

/-- C9: `list_objects` and `list_objects_size` return the same result for
any two values of the `max_objects` argument — the argument is defaulted
and then never used, so the listing is never truncated; on an existing
bucket the honest backend yields every key with the given prefix. -/
theorem list_objects_max_objects_no_influence :
    (∀ st fault bucket pfx m1 m2,
      Client.list_objects st fault bucket pfx m1 =
        Client.list_objects st fault bucket pfx m2) ∧
    (∀ st fault bucket pfx m1 m2,
      Client.list_objects_size st fault bucket pfx m1 =
        Client.list_objects_size st fault bucket pfx m2) ∧
    (∀ st bucket pfx m bc, assocGet bucket st = some bc →
      Client.list_objects st none bucket pfx m =
        .ok ((bc.filter (fun kv => strHasPfx pfx kv.1)).map (fun kv => kv.1))) := by
  refine ⟨fun st fault bucket pfx m1 m2 => rfl, fun st fault bucket pfx m1 m2 => rfl, ?_⟩
  intro st bucket pfx m bc h
  simp [Client.list_objects, Client.private_list_objects, sdkPaginateListObjects, h,
    Except.map, List.map_map, Function.comp]

/-- Witness for C9: on a two-object bucket, listing with prefix `a/` under
two different `max_objects` bounds gives identical, untruncated output. -/
theorem list_objects_max_objects_no_influence_witness :
    Client.list_objects [("b", [("a/x", ⟨[1], "t"⟩), ("a/y", ⟨[2], "t"⟩)])]
        none "b" "a/" (some 1) = .ok ["a/x", "a/y"] := by
  have h := list_objects_max_objects_no_influence.2.2
    [("b", [("a/x", ⟨[1], "t"⟩), ("a/y", ⟨[2], "t"⟩)])] "b" "a/" (some 1)
    [("a/x", ⟨[1], "t"⟩), ("a/y", ⟨[2], "t"⟩)] rfl
  exact h.trans (by decide)

/-- C4: `read(bucket, path)` returns the object bytes when the object
exists, raises `ObjectNotFound` when the bucket exists but the key is
absent, and raises `BucketNotFound` when the bucket is absent. -/
theorem read_spec :
    (∀ st b p (o : S3Object), objectAt st b p = some o →
      Client.read st none b p = .ok o.content) ∧
    (∀ st b p bc, assocGet b st = some bc → assocGet p bc = none →
      Client.read st none b p =
        .error (.objectNotFound ("Object " ++ p ++ " not found in bucket " ++ b))) ∧
    (∀ st b p, assocGet b st = none →
      Client.read st none b p =
        .error (.bucketNotFound ("Bucket " ++ b ++ " not found"))) := by
  refine ⟨?_, ?_, ?_⟩
  · intro st b p o h
    rcases hb : assocGet b st with _ | bc
    · simp [objectAt, hb] at h
    · rcases hk : assocGet p bc with _ | o2
      · simp [objectAt, hb, hk] at h
      · have : o2 = o := by simpa [objectAt, hb, hk] using h
        subst this
        simp [Client.read, sdkGetObject, hb, hk]
  · intro st b p bc hb hk
    simp [Client.read, sdkGetObject, hb, hk, pyExcName]
  · intro st b p hb
    simp [Client.read, sdkGetObject, hb, pyExcName]

/-- Witness for C4 on a one-object store: present key read back, absent
key `ObjectNotFound`, absent bucket `BucketNotFound`. -/
theorem read_spec_witness :
    Client.read [("b", [("k", ⟨[3, 4], "text/plain"⟩)])] none "b" "k" = .ok [3, 4] ∧
    Client.read [("b", [("k", ⟨[3, 4], "text/plain"⟩)])] none "b" "x" =
      .error (.objectNotFound "Object x not found in bucket b") ∧
    Client.read [("b", [("k", ⟨[3, 4], "text/plain"⟩)])] none "c" "k" =
      .error (.bucketNotFound "Bucket c not found") := by
  refine ⟨?_, ?_, ?_⟩
  · exact read_spec.1 [("b", [("k", ⟨[3, 4], "text/plain"⟩)])] "b" "k"
      ⟨[3, 4], "text/plain"⟩ rfl
  · exact read_spec.2.1 [("b", [("k", ⟨[3, 4], "text/plain"⟩)])] "b" "x"
      [("k", ⟨[3, 4], "text/plain"⟩)] rfl rfl
  · exact read_spec.2.2 [("b", [("k", ⟨[3, 4], "text/plain"⟩)])] "c" "k" rfl

/-- Counterexample for C1: a provider `ClientError` whose code is not
`InvalidAccessKeyId` (here `AccessDenied`) makes `list_buckets` return
`None` normally — the failure is silently swallowed, no taxonomy error is
raised. -/
theorem list_buckets_swallows_unrecognized_client_error :
    Client.list_buckets [] (some (.clientError "ClientError" "AccessDenied")) = .ok none ∧
    resIsError (Client.list_buckets []
      (some (.clientError "ClientError" "AccessDenied"))) = false := by
  exact ⟨rfl, rfl⟩

/-- Amended C1: `read`, `write`, `delete_object` and `copy` terminate in a
raised error on every failing SDK call, translating recognised failure
modes to single taxonomy kinds; but `list_buckets` raises only for the
`InvalidAccessKeyId` code and otherwise returns `None` normally, and the
object-listing helper likewise returns the accumulated (empty) output
normally on an unrecognised `ClientError`. -/
theorem error_propagation_amended :
    (∀ st e b p, resIsError (Client.read st (some e) b p) = true) ∧
    (∀ st e o b p cfg, resIsError (Client.write st (some e) o b p cfg) = true) ∧
    (∀ st e b p, resIsError (Client.delete_object st (some e) b p).1 = true) ∧
    (∀ st eg f2 bs bd ps pd cfg,
      resIsError (Client.copy st (some eg) f2 bs bd ps pd cfg).1 = true) ∧
    (∀ st f1 ec bs bd ps pd cfg,
      resIsError (Client.copy st f1 (some ec) bs bd ps pd cfg).1 = true) ∧
    (∀ st n c, Client.list_buckets st (some (.clientError n c)) =
      if c = "InvalidAccessKeyId" then .error (.connectionError "Invalid access key")
      else .ok none) ∧
    (∀ st n c bucket pfx m,
      Client.private_list_objects st (some (.clientError n c)) bucket pfx m =
        if n = "NoSuchBucket" then
          .error (.bucketNotFound ("Bucket " ++ bucket ++ " not found."))
        else .ok []) := by
  have herr : ∀ {α : Type} (x : Except Err α), (∃ e, x = .error e) → resIsError x = true := by
    intro α x h
    rcases h with ⟨e, rfl⟩
    rfl
  refine ⟨?_, ?_, ?_, ?_, ?_, fun st n c => rfl, fun st n c bucket pfx m => rfl⟩
  · intro st e b p
    refine herr _ ?_
    cases e <;> simp only [Client.read, sdkGetObject] <;>
      first
        | exact ⟨_, rfl⟩
        | (split <;> first | exact ⟨_, rfl⟩ | (split <;> exact ⟨_, rfl⟩))
  · intro st e o b p cfg
    refine herr _ ?_
    cases e <;> simp only [Client.write, sdkPutObject] <;>
      first
        | exact ⟨_, rfl⟩
        | (split <;> first | exact ⟨_, rfl⟩ | (split <;> exact ⟨_, rfl⟩))
  · intro st e b p
    refine herr _ ?_
    cases e <;> simp only [Client.delete_object, sdkDeleteObject] <;>
      split <;> exact ⟨_, rfl⟩
  · intro st eg f2 bs bd ps pd cfg
    refine herr _ ?_
    cases eg <;> simp only [Client.copy, sdkGetObject] <;>
      first
        | exact ⟨_, rfl⟩
        | (split <;> first | exact ⟨_, rfl⟩ | (split <;> exact ⟨_, rfl⟩))
  · intro st f1 ec bs bd ps pd cfg
    refine herr _ ?_
    rcases hg : sdkGetObject st f1 bs ps with e | o
    · cases e <;> simp only [Client.copy, hg] <;>
        first
          | exact ⟨_, rfl⟩
          | (split <;> first | exact ⟨_, rfl⟩ | (split <;> exact ⟨_, rfl⟩))
    · cases ec <;> simp only [Client.copy, hg, sdkCopyObject] <;>
        first
          | exact ⟨_, rfl⟩
          | (split <;> exact ⟨_, rfl⟩)

/-- C2: with any truthy configuration, constructing the GCS client
evaluates the undefined `Client._validator` attribute and Python raises
`AttributeError` — construction never reaches schema validation, so it
neither succeeds on a valid mapping nor raises `ConfigurationError` on an
invalid one. -/
theorem gcs_init_attribute_error (cfg : GcsConfig) (fault : Option PyExc) :
    Gcs.init (some cfg) fault = .error (.attributeError "_validator") := rfl

/-- C6: the Postgres client constructed with `autocommit=False` still sets
the psycopg2 session to autocommit (the literal `True` at line 94), so a
mutation through `query_cud` (even with `commit=False`) is durable at once
and a subsequent `rollback()` does not restore the prior state; the
Redshift client, configured from the same flag, does restore it. -/
theorem postgres_autocommit_ignored_bug :
    (Postgres.init ["prior"] false).conn.sessionAutocommit = true ∧
    pgView (Postgres.rollback (Postgres.query_cud (Postgres.init ["prior"] false)
      "INSERT INTO test VALUES (100);" false)).conn =
      ["prior", "INSERT INTO test VALUES (100);"] ∧
    pgView (Redshift.rollback (Redshift.query_cud (Redshift.init ["prior"] false)
      "INSERT INTO test VALUES (100);")).conn = ["prior"] := by
  exact ⟨rfl, rfl, rfl⟩

/-- Honest fault-free `copy` onto a destination distinct from the source:
it succeeds and writes the source content with the source content-type at
the destination coordinates, whatever extra configuration was passed. -/
theorem copy_honest_success (st : S3State) (bs bd ps pdst : String)
    (srcB dstB : BucketContent) (o : S3Object) (cfgOpt : Option CopyConfig)
    (hsb : assocGet bs st = some srcB) (ho : assocGet ps srcB = some o)
    (hdb : assocGet bd st = some dstB) (hne : (bd, pdst) ≠ (bs, ps)) :
    Client.copy st none none bs bd ps (some pdst) cfgOpt =
      (.ok (), assocPut bd (assocPut pdst ⟨o.content, o.contentType⟩ dstB) st) := by
  have hget : sdkGetObject st none bs ps = .ok o := by
    simp [sdkGetObject, hsb, ho]
  have hobj : objectAt st bs ps = some o := by
    simp [objectAt, hsb, ho]
  have hcheck : ¬((bd, pdst) = (bs, ps) ∧
      (Client.copyDirective bs bd ps (some pdst) cfgOpt ≠ some "REPLACE")) :=
    fun h => hne h.1
  simp only [Client.copy, hget, sdkCopyObject, hdb, hobj, if_neg hcheck]
  by_cases hdr : Client.copyDirective bs bd ps (some pdst) cfgOpt = some "REPLACE" <;>
    simp [hdr]

/-- C3: `move` is exactly copy followed by delete-source, with no
atomicity: when the copy has succeeded and the delete SDK call fails, the
error raised is the delete step's translation and both the source and the
destination objects remain present in the final state. -/
theorem move_copy_then_delete_non_atomic (st : S3State)
    (bs bd ps pdst : String) (srcB dstB : BucketContent) (o : S3Object) (fDel : PyExc)
    (hsb : assocGet bs st = some srcB) (ho : assocGet ps srcB = some o)
    (hdb : assocGet bd st = some dstB) (hne : (bd, pdst) ≠ (bs, ps)) :
    (∀ f1 f2 f3 cfg, Client.move st f1 f2 f3 bs bd ps (some pdst) cfg =
      (match Client.copy st f1 f2 bs bd ps (some pdst)
          (some (match cfg with | some c => c | none => CopyConfig.empty)) with
       | (.error e, st2) => (.error e, st2)
       | (.ok _, st2) => Client.delete_object st2 f3 bs ps)) ∧
    (resIsError (Client.move st none none (some fDel) bs bd ps (some pdst) none).1 = true ∧
     (Client.move st none none (some fDel) bs bd ps (some pdst) none).1 =
       (Client.delete_object
         (Client.copy st none none bs bd ps (some pdst) (some CopyConfig.empty)).2
         (some fDel) bs ps).1 ∧
     objectAt (Client.move st none none (some fDel) bs bd ps (some pdst) none).2 bs ps =
       some o ∧
     objectAt (Client.move st none none (some fDel) bs bd ps (some pdst) none).2 bd pdst =
       some ⟨o.content, o.contentType⟩) := by
  have hcopy := copy_honest_success st bs bd ps pdst srcB dstB o
    (some CopyConfig.empty) hsb ho hdb hne
  have hmv : Client.move st none none (some fDel) bs bd ps (some pdst) none =
      Client.delete_object
        (assocPut bd (assocPut pdst ⟨o.content, o.contentType⟩ dstB) st)
        (some fDel) bs ps := by
    simp only [Client.move, hcopy]
  have hdel2 : ∀ st3, (Client.delete_object st3 (some fDel) bs ps).2 = st3 := by
    intro st3
    simp only [Client.delete_object, sdkDeleteObject]
    split <;> rfl
  have hdel1 : resIsError (Client.delete_object
      (assocPut bd (assocPut pdst ⟨o.content, o.contentType⟩ dstB) st)
      (some fDel) bs ps).1 = true := by
    simp only [Client.delete_object, sdkDeleteObject]
    split <;> rfl
  refine ⟨fun f1 f2 f3 cfg => rfl, ?_, ?_, ?_, ?_⟩
  · rw [hmv]
    exact hdel1
  · rw [hmv, hcopy]
  · rw [hmv, hdel2]
    by_cases hbb : bs = bd
    · subst hbb
      have hsd : dstB = srcB := by
        rw [hsb] at hdb
        exact (Option.some.inj hdb).symm
      subst hsd
      have hps : ps ≠ pdst := by
        intro hcon
        exact hne (by rw [hcon])
      simp [objectAt, assocGet_assocPut_self, assocGet_assocPut_ne _ _ _ _ hps, ho]
    · have hbs : bs ≠ bd := hbb
      simp [objectAt, assocGet_assocPut_ne _ _ _ _ hbs, hsb, ho]
  · rw [hmv, hdel2]
    simp [objectAt, assocGet_assocPut_self]

/-- Witness for C3: moving `b1/k` to `b2/k2` with a fault injected on the
delete call raises the delete error while both copies stay present. -/
theorem move_copy_then_delete_non_atomic_witness :
    resIsError (Client.move [("b1", [("k", ⟨[7], "application/json"⟩)]), ("b2", [])]
      none none (some (.clientError "NoSuchBucket" "NoSuchBucket"))
      "b1" "b2" "k" (some "k2") none).1 = true ∧
    objectAt (Client.move [("b1", [("k", ⟨[7], "application/json"⟩)]), ("b2", [])]
      none none (some (.clientError "NoSuchBucket" "NoSuchBucket"))
      "b1" "b2" "k" (some "k2") none).2 "b1" "k" = some ⟨[7], "application/json"⟩ ∧
    objectAt (Client.move [("b1", [("k", ⟨[7], "application/json"⟩)]), ("b2", [])]
      none none (some (.clientError "NoSuchBucket" "NoSuchBucket"))
      "b1" "b2" "k" (some "k2") none).2 "b2" "k2" = some ⟨[7], "application/json"⟩ := by
  have h := move_copy_then_delete_non_atomic
    [("b1", [("k", ⟨[7], "application/json"⟩)]), ("b2", [])]
    "b1" "b2" "k" "k2" [("k", ⟨[7], "application/json"⟩)] [] ⟨[7], "application/json"⟩
    (.clientError "NoSuchBucket" "NoSuchBucket") rfl rfl rfl (by decide)
  exact ⟨h.2.1, h.2.2.2.1, h.2.2.2.2⟩

/-- Counterexample for C5: with `bucket_destination = bucket_source` and
`path_destination` omitted, the effective destination coordinates equal the
source coordinates, yet the issued request carries no metadata-replace
directive — and honest S3 therefore rejects it as an illegal no-op copy. -/
theorem copy_inplace_default_no_replace_directive :
    Client.copyDirective "b" "b" "k" none none = none ∧
    (("b", (none : Option String).getD "k") = ("b", "k")) ∧
    (Client.copy [("b", [("k", ⟨[1], "application/json"⟩)])] none none
      "b" "b" "k" none none).1 =
      .error (.wrappedException (.clientError "ClientError" "InvalidRequest")) := by
  exact ⟨rfl, rfl, by decide⟩

/-- Amended C5: `copy` reads the source content-type and propagates it to
the destination; the metadata-replace directive is issued exactly when the
raw `path_destination` argument equals `path_source` and the buckets
coincide — when `path_destination` is omitted the directive is not set even
though the defaulted destination coincides with the source. -/
theorem copy_content_type_and_directive_amended :
    (∀ bs bd ps pd cfgOpt, (bd, pd) = (bs, some ps) →
      Client.copyDirective bs bd ps pd cfgOpt = some "REPLACE") ∧
    (∀ bs bd ps pd, Client.copyDirective bs bd ps pd none = some "REPLACE" ↔
      (bd, pd) = (bs, some ps)) ∧
    (∀ st bs bd ps pdst srcB dstB (o : S3Object) cfgOpt,
      assocGet bs st = some srcB → assocGet ps srcB = some o →
      assocGet bd st = some dstB → (bd, pdst) ≠ (bs, ps) →
      (Client.copy st none none bs bd ps (some pdst) cfgOpt).1 = .ok () ∧
      objectAt (Client.copy st none none bs bd ps (some pdst) cfgOpt).2 bd pdst =
        some ⟨o.content, o.contentType⟩) := by
  refine ⟨?_, ?_, ?_⟩
  · intro bs bd ps pd cfgOpt h
    simp [Client.copyDirective, h]
  · intro bs bd ps pd
    by_cases h : (bd, pd) = (bs, some ps)
    · simp [Client.copyDirective, h]
    · simp [Client.copyDirective, CopyConfig.empty, h]
  · intro st bs bd ps pdst srcB dstB o cfgOpt hsb ho hdb hne
    have hcopy := copy_honest_success st bs bd ps pdst srcB dstB o cfgOpt hsb ho hdb hne
    rw [hcopy]
    exact ⟨rfl, by simp [objectAt, assocGet_assocPut_self]⟩

/-- Witness for C5 (amended): an explicit identical destination receives
the REPLACE directive, and a copy of `s/f` to `d/f2` delivers the source
content-type `text/csv` at the destination. -/
theorem copy_content_type_and_directive_amended_witness :
    Client.copyDirective "s" "s" "f" (some "f") none = some "REPLACE" ∧
    objectAt (Client.copy [("s", [("f", ⟨[9], "text/csv"⟩)]), ("d", [])] none none
      "s" "d" "f" (some "f2") none).2 "d" "f2" = some ⟨[9], "text/csv"⟩ := by
  refine ⟨copy_content_type_and_directive_amended.1 "s" "s" "f" (some "f") none rfl, ?_⟩
  exact (copy_content_type_and_directive_amended.2.2
    [("s", [("f", ⟨[9], "text/csv"⟩)]), ("d", [])] "s" "d" "f" "f2"
    [("f", ⟨[9], "text/csv"⟩)] [] ⟨[9], "text/csv"⟩ none rfl rfl rfl (by decide)).2

theorem checkRow_ok_of (cols : List String) (row : List (String × Json))
    (h : ∀ c ∈ cols, ∃ v, assocGet c row = some v ∧ v.isAdaptable = true) :
    checkRow cols row = .ok () := by
  induction cols with
  | nil => rfl
  | cons c rest ih =>
    rcases h c (List.mem_cons_self c rest) with ⟨v, hv, hva⟩
    simp only [checkRow, hv, hva, if_pos]
    exact ih (fun c2 hc2 => h c2 (List.mem_cons_of_mem c hc2))

theorem checkRow_shape (cols : List String) (row : List (String × Json)) :
    checkRow cols row = .ok () ∨ (∃ c, checkRow cols row = .error (.keyError c)) ∨
      (∃ m, checkRow cols row = .error (.databaseError m)) := by
  induction cols with
  | nil => exact Or.inl rfl
  | cons c rest ih =>
    rcases hv : assocGet c row with _ | v
    · exact Or.inr (Or.inl ⟨c, by simp only [checkRow, hv]⟩)
    · by_cases hva : v.isAdaptable = true
      · rcases ih with h | h | h
        · exact Or.inl (by simp only [checkRow, hv, hva, if_pos, h])
        · rcases h with ⟨c2, h⟩
          exact Or.inr (Or.inl ⟨c2, by simp only [checkRow, hv, hva, if_pos, h]⟩)
        · rcases h with ⟨m, h⟩
          exact Or.inr (Or.inr ⟨m, by simp only [checkRow, hv, hva, if_pos, h]⟩)
      · refine Or.inr (Or.inr ⟨"cannot adapt parameter " ++ c, ?_⟩)
        simp only [checkRow, hv]
        rw [if_neg hva]

theorem execBatchRows_never_data_structure_error (q : String) (cols : List String) :
    ∀ (rows : List Json) (conn : PgConn),
      resIsDataStructureError (execBatchRows conn q cols rows) = false := by
  intro rows
  induction rows with
  | nil => intro conn; rfl
  | cons r rest ih =>
    intro conn
    rcases r with _ | b | n | s | xs | kvs <;>
      simp only [execBatchRows, resIsDataStructureError]
    rcases checkRow_shape cols kvs with h | h | h
    · simp only [h]
      exact ih (pgExecute conn q)
    · rcases h with ⟨c, h⟩
      simp only [h, resIsDataStructureError]
    · rcases h with ⟨m, h⟩
      simp only [h, resIsDataStructureError]

theorem execBatchRows_uniform (q : String) (cols : List String) :
    ∀ (rows : List (List (String × Json))) (conn : PgConn),
      (∀ r ∈ rows, ∀ c ∈ cols, ∃ v, assocGet c r = some v ∧ v.isAdaptable = true) →
      execBatchRows conn q cols (rows.map Json.obj) = .ok (pgExecuteAll conn q rows.length) := by
  intro rows
  induction rows with
  | nil => intro conn _; rfl
  | cons r rest ih =>
    intro conn h
    have hr := checkRow_ok_of cols r (h r (List.mem_cons_self r rest))
    simp only [List.map_cons, execBatchRows, hr, List.length_cons]
    exact ih (pgExecute conn q) (fun r2 hr2 => h r2 (List.mem_cons_of_mem r hr2))

theorem assocGet_of_mem_keys {α : Type} (c : String) (l : List (String × α))
    (h : c ∈ l.map Prod.fst) : ∃ v, assocGet c l = some v := by
  induction l with
  | nil => simp at h
  | cons hd tl ih =>
    by_cases hc : c = hd.1
    · exact ⟨hd.2, by simp [assocGet, hc]⟩
    · have : c ∈ tl.map Prod.fst := by
        simp only [List.map_cons, List.mem_cons] at h
        rcases h with h | h
        · exact absurd h hc
        · exact h
      rcases ih this with ⟨v, hv⟩
      exact ⟨v, by simp only [assocGet]; rw [if_neg hc]; exact hv⟩

theorem assocGet_some_mem {α : Type} (c : String) (v : α) :
    ∀ (l : List (String × α)), assocGet c l = some v → (c, v) ∈ l := by
  intro l
  induction l with
  | nil => intro h; simp [assocGet] at h
  | cons hd tl ih =>
    intro h
    by_cases hc : c = hd.1
    · simp only [assocGet] at h
      rw [if_pos hc] at h
      have : hd = (c, v) := by
        rcases hd with ⟨k2, v2⟩
        simp only at hc
        simp only [Option.some.injEq] at h
        rw [hc, h]
      rw [← this]
      exact List.mem_cons_self hd tl
    · simp only [assocGet] at h
      rw [if_neg hc] at h
      exact List.mem_cons_of_mem hd (ih h)

theorem json_scalar_adaptable (v : Json) (h : v.isScalar = true) : v.isAdaptable = true := by
  cases v <;> first | rfl | (simp [Json.isScalar] at h)

/-- Counterexample for C7: two rows that are flat mappings with different
keys pass the data-structure check (only `data[0]` is validated, because
the schema's `items` is positional), and the batch insert built from the
first row's keys then fails with a native `KeyError` — not with
`DataStructureError` as the claim requires. -/
theorem write_batch_nonuniform_rows_no_data_structure_error :
    write_batch (Postgres.init [] true) "test"
      (.arr [.obj [("a", .num 1)], .obj [("b", .num 2)]]) 100 = .error (.keyError "a") ∧
    resIsDataStructureError (write_batch (Postgres.init [] true) "test"
      (.arr [.obj [("a", .num 1)], .obj [("b", .num 2)]]) 100) = false := by
  exact ⟨rfl, rfl⟩

/-- Amended C7: `write_batch` raises `DataStructureError` exactly when the
payload fails the positional shape check (not an array, or a first element
that is not a mapping); uniformity and flatness of the rows are not
checked — any array whose first element is a mapping passes — and when the
rows are uniform flat mappings sharing identical keys the parameterised
insert derived from the first row runs once per row. -/
theorem write_batch_validation_amended :
    (∀ cl table bsz data, resIsDataStructureError (write_batch cl table data bsz) =
      resIsDataStructureError (validateBatchData data)) ∧
    (∀ cl table bsz kvs1 rest, resIsDataStructureError
      (write_batch cl table (.arr (.obj kvs1 :: rest)) bsz) = false) ∧
    (∀ cl table bsz (r0 : List (String × Json)) (rows : List (List (String × Json))),
      (∀ r ∈ r0 :: rows, r.map Prod.fst = r0.map Prod.fst) →
      (∀ r ∈ r0 :: rows, ∀ kv ∈ r, Json.isScalar kv.2 = true) →
      write_batch cl table (.arr ((r0 :: rows).map Json.obj)) bsz =
        .ok ⟨pgExecuteAll cl.conn ("INSERT INTO " ++ table ++ " (" ++
          String.intercalate ", " (r0.map Prod.fst) ++ ") VALUES (" ++
          String.intercalate ", " ((r0.map Prod.fst).map (fun k => "%(" ++ k ++ ")s")) ++
          ");") (rows.length + 1)⟩) := by
  have hshape : ∀ cl table bsz (kvs1 : List (String × Json)) rest,
      resIsDataStructureError
        (write_batch cl table (.arr (.obj kvs1 :: rest)) bsz) = false := by
    intro cl table bsz kvs1 rest
    simp only [write_batch, validateBatchData]
    rcases hex : execBatchRows cl.conn
        ("INSERT INTO " ++ table ++ " (" ++
          String.intercalate ", " (kvs1.map (fun kv => kv.1)) ++ ") VALUES (" ++
          String.intercalate ", "
            ((kvs1.map (fun kv => kv.1)).map (fun k => "%(" ++ k ++ ")s")) ++ ");")
        (kvs1.map (fun kv => kv.1)) (Json.obj kvs1 :: rest) with e | c2
    · have he := execBatchRows_never_data_structure_error
        ("INSERT INTO " ++ table ++ " (" ++
          String.intercalate ", " (kvs1.map (fun kv => kv.1)) ++ ") VALUES (" ++
          String.intercalate ", "
            ((kvs1.map (fun kv => kv.1)).map (fun k => "%(" ++ k ++ ")s")) ++ ");")
        (kvs1.map (fun kv => kv.1)) (Json.obj kvs1 :: rest) cl.conn
      rw [hex] at he
      simp only [hex]
      cases e <;> first | rfl | (simp [resIsDataStructureError] at he)
    · simp only [hex]
      rfl
  refine ⟨?_, hshape, ?_⟩
  · intro cl table bsz data
    rcases data with _ | b | n | s | xs | kvs
    · rfl
    · rfl
    · rfl
    · rfl
    · rcases xs with _ | ⟨d0, rest⟩
      · rfl
      · rcases d0 with _ | b | n | s | xs2 | kvs <;> first | rfl | exact hshape cl table bsz kvs rest
    · rfl
  · intro cl table bsz r0 rows hkeys hflat
    have hrows : ∀ r ∈ r0 :: rows, ∀ c ∈ r0.map Prod.fst,
        ∃ v, assocGet c r = some v ∧ v.isAdaptable = true := by
      intro r hr c hc
      have hck : c ∈ r.map Prod.fst := by rw [hkeys r hr]; exact hc
      rcases assocGet_of_mem_keys c r hck with ⟨v, hv⟩
      refine ⟨v, hv, ?_⟩
      exact json_scalar_adaptable v (hflat r hr (c, v) (assocGet_some_mem c v r hv))
    have hexec := execBatchRows_uniform
      ("INSERT INTO " ++ table ++ " (" ++
        String.intercalate ", " (r0.map (fun kv => kv.1)) ++ ") VALUES (" ++
        String.intercalate ", "
          ((r0.map (fun kv => kv.1)).map (fun k => "%(" ++ k ++ ")s")) ++ ");")
      (r0.map (fun kv => kv.1)) (r0 :: rows) cl.conn hrows
    simp only [List.length_cons, List.map_cons] at hexec
    simp only [List.map_cons, write_batch, validateBatchData]
    rw [hexec]

/-- Witness for C7 (amended): two uniform flat single-key rows insert
twice with the statement derived from the first row. -/
theorem write_batch_validation_amended_witness :
    write_batch (Postgres.init [] true) "t"
      (.arr [.obj [("a", .num 1)], .obj [("a", .num 2)]]) 100 =
      .ok ⟨⟨true, ⟨["INSERT INTO t (a) VALUES (%(a)s);",
                    "INSERT INTO t (a) VALUES (%(a)s);"], []⟩⟩⟩ := by
  have h := write_batch_validation_amended.2.2 (Postgres.init [] true) "t" 100
    [("a", .num 1)] [[("a", .num 2)]]
    (by
      intro r hr
      simp only [List.mem_cons, List.not_mem_nil, or_false] at hr
      rcases hr with rfl | rfl <;> rfl)
    (by
      intro r hr
      simp only [List.mem_cons, List.not_mem_nil, or_false] at hr
      rcases hr with rfl | rfl <;>
        (intro kv hkv
         simp only [List.mem_cons, List.not_mem_nil, or_false] at hkv
         rw [hkv]
         rfl))
  exact h.trans (by rfl)

/-- Counterexample for C8: on a configuration that passes validation, an
STS `ClientError` whose code is not `InvalidClientTokenId` (here
`AccessDenied`, e.g. a role that may not be assumed) makes `assume_role`
raise `UnboundLocalError` on the unset `resp` variable — neither the
three-key credential mapping nor a connection error. -/
theorem assume_role_unrecognized_code_unbound_local :
    validateStsConfig ⟨some "eu-central-1", none, none,
      some "arn:aws:iam::111111111111:role/test", []⟩ = .ok () ∧
    assume_role ⟨some "eu-central-1", none, none,
      some "arn:aws:iam::111111111111:role/test", []⟩
      (.error (.clientError "ClientError" "AccessDenied")) =
      .error (.unboundLocal "resp") := by
  exact ⟨by decide, by decide⟩

/-- Amended C8: on a validated configuration, `assume_role` returns the
mapping with exactly the three temporary-credential keys on a 200
response (and the empty mapping otherwise), fails with `ConnectionError`
on `InvalidClientTokenId` or missing credentials, but escapes with
`UnboundLocalError` on any other `ClientError` code. -/
theorem assume_role_amended (c : StsConfig) (hv : validateStsConfig c = .ok ()) :
    (∀ resp : StsResponse, resp.httpStatus = 200 →
      assume_role c (.ok resp) =
        .ok [("aws_access_key_id", resp.accessKeyId),
             ("aws_secret_access_key", resp.secretAccessKey),
             ("aws_session_token", resp.sessionToken)]) ∧
    (∀ resp : StsResponse, resp.httpStatus ≠ 200 → assume_role c (.ok resp) = .ok []) ∧
    (∀ n, assume_role c (.error (.clientError n "InvalidClientTokenId")) =
      .error (.connectionError "Invalid client token")) ∧
    (∀ n code, code ≠ "InvalidClientTokenId" →
      assume_role c (.error (.clientError n code)) = .error (.unboundLocal "resp")) ∧
    assume_role c (.error .noCredentialsError) =
      .error (.connectionError "no credentials") := by
  refine ⟨?_, ?_, ?_, ?_, ?_⟩
  · intro resp h200
    simp [assume_role, hv, h200]
  · intro resp h200
    simp [assume_role, hv, h200]
  · intro n
    simp [assume_role, hv]
  · intro n code hcode
    simp [assume_role, hv, hcode]
  · simp [assume_role, hv]

/-- Witness for C8 (amended): a validated configuration and a 200 response
yield exactly the three-key credential mapping. -/
theorem assume_role_amended_witness :
    assume_role ⟨some "us-east-1", none, none,
      some "arn:aws:iam::999999999999:role/r", []⟩ (.ok ⟨200, "A", "S", "T"⟩) =
      .ok [("aws_access_key_id", "A"), ("aws_secret_access_key", "S"),
           ("aws_session_token", "T")] := by
  exact (assume_role_amended ⟨some "us-east-1", none, none,
    some "arn:aws:iam::999999999999:role/r", []⟩ (by decide)).1 ⟨200, "A", "S", "T"⟩ rfl

theorem retryExec_calls_le {α : Type} (f : Nat → Except String α) :
    ∀ (rem i : Nat), (retryExec f i rem).2 ≤ rem := by
  intro rem
  induction rem with
  | zero => intro i; exact Nat.le_refl 0
  | succ n ih =>
    intro i
    rcases hf : f i with e | v
    · simp only [retryExec, hf]
      exact Nat.succ_le_succ (ih (i + 1))
    · simp only [retryExec, hf]
      exact Nat.succ_le_succ (Nat.zero_le n)

theorem retryExec_none_of_all_fail {α : Type} (f : Nat → Except String α) :
    ∀ (rem i : Nat), (∀ j, i ≤ j → j < i + rem → exceptFails (f j) = true) →
      (retryExec f i rem).1 = none := by
  intro rem
  induction rem with
  | zero => intro i _; rfl
  | succ n ih =>
    intro i h
    rcases hf : f i with e | v
    · simp only [retryExec, hf]
      exact ih (i + 1) (fun j hj1 hj2 => h j (by omega) (by omega))
    · have := h i (Nat.le_refl i) (by omega)
      rw [hf] at this
      exact absurd this (by simp [exceptFails])

/-- C10: the `connection_retry` wrapper invokes the wrapped function at
most `max_attempts` times, and when every attempt raises it returns `None`
instead of propagating the last exception. -/
theorem connection_retry_bound_and_swallow {α : Type} (f : Nat → Except String α)
    (m : Nat) (db di : ℚ) :
    connection_retry_calls m f ≤ m ∧
    ((∀ i, i < m → exceptFails (f i) = true) → connection_retry m db di f = none) := by
  constructor
  · exact retryExec_calls_le f m 0
  · intro h
    exact retryExec_none_of_all_fail f m 0 (fun j _ hj => h j (by omega))

/-- Witness for C10: three always-failing attempts are capped at three
calls and the wrapper returns `None`. -/
theorem connection_retry_bound_and_swallow_witness :
    connection_retry_calls 3 (fun _ => (.error "boom" : Except String Nat)) ≤ 3 ∧
    connection_retry 3 5 (1 / 2) (fun _ => (.error "boom" : Except String Nat)) = none := by
  have h := connection_retry_bound_and_swallow
    (fun _ => (.error "boom" : Except String Nat)) 3 5 (1 / 2)
  exact ⟨h.1, h.2 (fun i _ => rfl)⟩

end CloudConnectors
